import Mathlib

/-!
Shallow embedding of the stunner repository, covering the UDP scanner
(internal/cmd/udpscanner.go) and the SOCKS TURN TCP handler
(internal/socksimplementations/socksturntcphandler.go).

Bytes are modelled as natural numbers (values mod 256 where Go converts to
uint8/uint16) and byte strings as lists of naturals.  Collaborators that live
outside the visible source (the helper and internal packages: PutUint16,
PutUint32, SetupTurnConnection, SendAndReceive, ResolveName, IsPrivateIP,
IPIterator) are modelled from the spec or abstracted into explicit
environment parameters, as noted on each definition.
-/

namespace Stunner

/-- Modelled from the spec: helper.PutUint16 is not under src; the spec fixes
its byte order (the ChannelData length field equals the payload length encoded
big-endian), so it writes a 16-bit value as two big-endian bytes. -/
def putUint16 (n : Nat) : List Nat :=
  [n / 256 % 256, n % 256]

/-- Modelled from the spec: helper.PutUint32 is not under src; the spec fixes
its byte order (request id 0xDEADBEEF appears on the wire as DE AD BE EF), so
it writes a 32-bit value as four big-endian bytes. -/
def putUint32 (n : Nat) : List Nat :=
  [n / 16777216 % 256, n / 65536 % 256, n / 256 % 256, n % 256]

/-- The inner SNMP sequence assembled byte by byte in snmpScan
(udpscanner.go lines 116-133): tag bytes, version, community length byte
(Go uint8 conversion, hence mod 256), community string, GetNextRequest header,
request id, and the fixed trailer ending in the OID 1.3.6.1.2.1.5. -/
def snmpInner (community : List Nat) (requestID : Nat) : List Nat :=
  [0x02, 0x01, 1, 0x04, community.length % 256] ++ community ++
    [0xa1, 0x19, 0x02, 0x04] ++ putUint32 requestID ++
    [0x02, 0x01, 0x00, 0x02, 0x01, 0x00, 0x30, 0x0b, 0x30, 0x09, 0x06,
      0x05, 0x2b, 0x06, 0x01, 0x02, 0x01, 0x05, 0x00]

/-- The full SNMP payload (udpscanner.go lines 135-139): SEQUENCE tag 0x30,
the inner length as a single byte (Go uint8 conversion), then the inner
sequence. -/
def snmpPayload (community : List Nat) (requestID : Nat) : List Nat :=
  0x30 :: (snmpInner community requestID).length % 256 ::
    snmpInner community requestID

/-- The ChannelData frame snmpScan writes (udpscanner.go lines 141-146):
the two channel-number bytes, then the payload length as uint16 big-endian,
then the payload.  No padding is appended. -/
def snmpChannelData (channelNumber community : List Nat) (requestID : Nat) :
    List Nat :=
  channelNumber ++ putUint16 ((snmpPayload community requestID).length % 65536) ++
    snmpPayload community requestID

/-- strings.Split of the domain name on the dot byte (46), keeping empty
parts, as used in dnsScan (udpscanner.go line 215). -/
def splitOnDot : List Nat → List (List Nat)
  | [] => [[]]
  | b :: rest =>
    match splitOnDot rest with
    | [] => [[]]
    | p :: ps => if b = 46 then [] :: p :: ps else (b :: p) :: ps

/-- The DNS question section built in dnsScan (udpscanner.go lines 214-226):
each label prefixed by its length byte (Go uint8 conversion), a terminating
null byte, QTYPE=A and QCLASS=IN. -/
def dnsQuestion (dnsName : List Nat) : List Nat :=
  ((splitOnDot dnsName).map fun x => x.length % 256 :: x).flatten ++
    [0x00] ++ putUint16 1 ++ putUint16 1

/-- The full DNS payload (udpscanner.go lines 199-228): transaction id,
flags 0x0100, QDCOUNT=1, zero answer, authority and additional counts,
then the question. -/
def dnsPayload (txid : Nat) (dnsName : List Nat) : List Nat :=
  putUint16 txid ++ [0x01, 0x00] ++ putUint16 1 ++ putUint16 0 ++
    putUint16 0 ++ putUint16 0 ++ dnsQuestion dnsName

/-- The ChannelData frame dnsScan writes (udpscanner.go lines 230-235):
channel-number bytes, payload length as uint16 big-endian, payload.
No padding is appended. -/
def dnsChannelData (channelNumber : List Nat) (txid : Nat)
    (dnsName : List Nat) : List Nat :=
  channelNumber ++ putUint16 ((dnsPayload txid dnsName).length % 65536) ++
    dnsPayload txid dnsName

/-- UDPScannerOpts (udpscanner.go lines 16-28).  The logrus logger is
modelled by its presence; the timeout is an abstract duration. -/
structure UDPScannerOpts where
  turnServer : String
  protocol : String
  username : String
  password : String
  useTLS : Bool
  tlsVerify : Bool
  timeout : Nat
  hasLog : Bool
  communityString : List Nat
  domainName : List Nat
  ips : List String
deriving DecidableEq

/-- UDPScannerOpts.Validate (udpscanner.go lines 30-58), returning the error
message when validation fails and none on success.  strings.Contains of the
turn server and a colon is the membership of the colon character in the
string's characters. -/
def validateOpts (opts : UDPScannerOpts) : Option String :=
  if opts.turnServer = "" then some "need a valid turnserver"
  else if (opts.turnServer.toList.contains ':') = false then
    some "turnserver needs a port"
  else if opts.protocol ≠ "tcp" ∧ opts.protocol ≠ "udp" then
    some "protocol needs to be either tcp or udp"
  else if opts.username = "" then some "please supply a username"
  else if opts.password = "" then some "please supply a password"
  else if opts.hasLog = false then some "please supply a valid logger"
  else if opts.communityString = [] then
    some "please supply a valid community string"
  else if opts.domainName = [] then
    some "please supply a valid domain name"
  else none

/-- A log line emitted through the logrus collaborator.  Message formatting
of the two Info lines in snmpScan and dnsScan (udpscanner.go lines 167-168
and 256-257) is abstracted into the data they log. -/
inductive LogEntry
  | error (msg : String)
  | debug (msg : String)
  | infoReceived (dataLen channel : Nat) (ip : String)
  | infoResponse (ip : String)
deriving DecidableEq

/-- The outcome of one probe (snmpScan or dnsScan) against one target, as an
explicit environment: which of the fallible collaborator calls
(internal.SetupTurnConnection, internal.ChannelBindRequest, SendAndReceive,
helper.ConnectionWrite, helper.ConnectionRead, internal.ExtractChannelData,
all outside src and modelled from the spec) fails first, whether the failure
is helper.ErrTimeout, and the response data on success. -/
inductive ProbeOutcome
  | setupTimeout
  | setupError (e : String)
  | bindGenError (e : String)
  | bindSendError (e : String)
  | bindErrorResponse (errString : String)
  | writeError (e : String)
  | readTimeout
  | readError (e : String)
  | extractError (e : String)
  | success (channel : Nat) (data : List Nat)
deriving DecidableEq

/-- The return value of snmpScan (udpscanner.go lines 89-171) as a function
of the probe outcome: none when the function returns nil, otherwise the error
message it returns (with the fmt.Errorf wrapping applied).  Timeouts during
setup and during the response read return nil. -/
def snmpScanResult : ProbeOutcome → Option String
  | .setupTimeout => none
  | .setupError e => some e
  | .bindGenError e => some ("error on generating ChannelBindRequest: " ++ e)
  | .bindSendError e => some ("error on sending ChannelBindRequest: " ++ e)
  | .bindErrorResponse es => some ("error on ChannelBind: " ++ es)
  | .writeError e => some ("error on sending SNMP request: " ++ e)
  | .readTimeout => none
  | .readError e => some ("error on reading SNMP response: " ++ e)
  | .extractError e => some e
  | .success _ _ => none

/-- The return value of dnsScan (udpscanner.go lines 173-260), identical in
shape to snmpScanResult but with the DNS wording of its error messages. -/
def dnsScanResult : ProbeOutcome → Option String
  | .setupTimeout => none
  | .setupError e => some e
  | .bindGenError e => some ("error on generating ChannelBindRequest: " ++ e)
  | .bindSendError e => some ("error on sending ChannelBindRequest: " ++ e)
  | .bindErrorResponse es => some ("error on ChannelBind: " ++ es)
  | .writeError e => some ("error on sending DNS request: " ++ e)
  | .readTimeout => none
  | .readError e => some ("error on reading DNS response: " ++ e)
  | .extractError e => some e
  | .success _ _ => none

/-- The Info log lines a probe emits itself: only the success path logs
(udpscanner.go lines 167-168 and 256-257). -/
def probeInfoLogs (ip : String) : ProbeOutcome → List LogEntry
  | .success channel data => [.infoReceived data.length channel ip, .infoResponse ip]
  | _ => []

/-- The log lines attributable to one probe from inside UDPScanner's loop
(udpscanner.go lines 78-83): when the probe returned an error it is logged
at Error level; otherwise the probe's own Info lines stand. -/
def probeLogs (kind ip : String) (o : ProbeOutcome) (res : Option String) :
    List LogEntry :=
  match res with
  | some e =>
    [.error ("error on running " ++ kind ++ " Scan for ip " ++ ip ++ ": " ++ e)]
  | none => probeInfoLogs ip o

/-- One item produced by the helper.IPIterator collaborator (outside src,
modelled from the spec as a stream of an ip or an iteration error), together
with the outcomes of the two probes run against the ip. -/
inductive IterItem
  | iterError (e : String)
  | ipTarget (ip : String) (snmp dns : ProbeOutcome)
deriving DecidableEq

/-- The body of UDPScanner's range loop for one item (udpscanner.go lines
72-84): an iteration error is logged and the loop continues; otherwise the
ip is logged at Debug, the SNMP probe runs, then the DNS probe runs, each
error being logged without stopping the loop. -/
def scanItemLogs : IterItem → List LogEntry
  | .iterError e => [.error e]
  | .ipTarget ip s d =>
    LogEntry.debug ("Scanning " ++ ip) ::
      (probeLogs "SNMP" ip s (snmpScanResult s) ++
        probeLogs "DNS" ip d (dnsScanResult d))

/-- UDPScanner (udpscanner.go lines 60-87) over an explicit iterator stream:
it returns the validation error and logs nothing when Validate fails, and
otherwise scans every item, returning nil together with the accumulated log. -/
def UDPScanner (opts : UDPScannerOpts) (items : List IterItem) :
    Option String × List LogEntry :=
  match validateOpts opts with
  | some e => (some e, [])
  | none => (none, (items.map scanItemLogs).flatten)

/-- A Refresh request as built by internal.RefreshRequest (outside src,
modelled from the spec: an authenticated Refresh carrying the username,
password, nonce and realm it is given). -/
structure RefreshReq where
  username : String
  password : String
  nonce : String
  realm : String
deriving DecidableEq

/-- The result of one SendAndReceive on the control connection (outside src,
modelled from the spec): a transport error, or a response whose class is
error or success, with the values of its REALM and NONCE attributes and its
GetErrorString rendering. -/
inductive SendResult
  | err (e : String)
  | resp (isError : Bool) (realmAttr nonceAttr errString : String)
deriving DecidableEq

/-- Which arm of the select in SocksTurnTCPHandler.Refresh fires first:
the context is cancelled, or the 2-minute ticker delivers a tick. -/
inductive RefreshEvent
  | ctxDone
  | tick
deriving DecidableEq

/-- SocksTurnTCPHandler.Refresh (socksturntcphandler.go lines 72-103) as a
function of the select outcome and the results of the at most two
SendAndReceive calls.  It returns the list of Refresh requests issued, in
order, and the error message logged at Error level (none when nothing was
logged).  The nonce and realm for the first request are the empty strings
initialised at the top of the function; the retry uses the REALM and NONCE
attributes of the error-class response. -/
def RefreshRun (username password : String) (ev : RefreshEvent)
    (s1 s2 : SendResult) : List RefreshReq × Option String :=
  match ev with
  | .ctxDone => ([], none)
  | .tick =>
    let req1 : RefreshReq := ⟨username, password, "", ""⟩
    match s1 with
    | .err e => ([req1], some e)
    | .resp isErr realmAttr nonceAttr _ =>
      if isErr then
        let req2 : RefreshReq := ⟨username, password, nonceAttr, realmAttr⟩
        match s2 with
        | .err e => ([req1, req2], some e)
        | .resp isErr2 _ _ errString2 =>
          if isErr2 then ([req1, req2], some errString2)
          else ([req1, req2], none)
      else ([req1], none)

/-- The socks.Request fields PreHandler reads (socksturntcphandler.go lines
33-54): address type, destination address bytes, destination port. -/
inductive AddressType
  | ipv4
  | ipv6
  | domainname
  | other (code : Nat)
deriving DecidableEq

/-- A SOCKS request as consumed by PreHandler. -/
structure SocksRequest where
  addressType : AddressType
  destinationAddress : List Nat
  destinationPort : Nat
deriving DecidableEq

/-- The SOCKS reply codes PreHandler produces. -/
inductive SocksReply
  | hostUnreachable
  | addressTypeNotSupported
deriving DecidableEq

/-- The result of helper.ResolveName (outside src, modelled from the spec:
a resolver returning a list of addresses or an error). -/
inductive ResolveResult
  | err (e : String)
  | ok (addrs : List (List Nat))
deriving DecidableEq

/-- The result of internal.SetupTurnTCPConnection (outside src, modelled
from the spec: the TCP-allocation dance returning a control connection and a
data connection, or failing).  Connections are abstract identifiers. -/
inductive SetupResult
  | err (e : String)
  | ok (control data : Nat)
deriving DecidableEq

/-- The target-resolution outcome of PreHandler's switch. -/
inductive TargetResult
  | failure (reply : SocksReply)
  | ok (target : List Nat)
deriving DecidableEq

/-- The switch on request.AddressType in PreHandler (socksturntcphandler.go
lines 36-54): ip literals must be 4 or 16 bytes (netip.AddrFromSlice),
hostnames go through the resolver, whose error or empty answer is
HostUnreachable and whose first entry is the target; other address types are
AddressTypeNotSupported. -/
def resolveTarget (resolve : ResolveResult) (req : SocksRequest) :
    TargetResult :=
  match req.addressType with
  | .ipv4 =>
    if req.destinationAddress.length = 4 ∨ req.destinationAddress.length = 16
    then .ok req.destinationAddress
    else .failure .addressTypeNotSupported
  | .ipv6 =>
    if req.destinationAddress.length = 4 ∨ req.destinationAddress.length = 16
    then .ok req.destinationAddress
    else .failure .addressTypeNotSupported
  | .domainname =>
    match resolve with
    | .err _ => .failure .hostUnreachable
    | .ok [] => .failure .hostUnreachable
    | .ok (a :: _) => .ok a
  | .other _ => .failure .addressTypeNotSupported

/-- What PreHandler returned and did: the reply or the data connection, the
control connection stored on the handler, and whether
internal.SetupTurnTCPConnection was ever called. -/
inductive PreHandlerResult
  | failure (reply : SocksReply)
  | success (dataConnection : Nat)
deriving DecidableEq

/-- The observable outcome of one PreHandler call. -/
structure PreHandlerOutcome where
  result : PreHandlerResult
  controlConnection : Option Nat
  setupAttempted : Bool
deriving DecidableEq

/-- SocksTurnTCPHandler.PreHandler (socksturntcphandler.go lines 33-69) over
an explicit environment: the helper.IsPrivateIP predicate (outside src,
modelled as a parameter over the private-ranges set), the resolver result and
the TURN setup result.  The drop-non-private check runs after target
resolution and before any TURN connection setup. -/
def PreHandler (dropNonPrivate : Bool) (isPrivate : List Nat → Bool)
    (resolve : ResolveResult) (setup : SetupResult) (req : SocksRequest) :
    PreHandlerOutcome :=
  match resolveTarget resolve req with
  | .failure r => ⟨.failure r, none, false⟩
  | .ok target =>
    if dropNonPrivate && !(isPrivate target) then
      ⟨.failure .hostUnreachable, none, false⟩
    else
      match setup with
      | .err _ => ⟨.failure .hostUnreachable, none, true⟩
      | .ok control data => ⟨.success data, some control, true⟩

/-- C1: the claim says the Refresh task issues a Refresh request every 2
minutes repeatedly, with another refresh at tick n+1 after a successful one
at tick n.  The function's select has no enclosing loop: after the first tick
fires and the refresh succeeds, exactly one Refresh request has been issued
and the task returns, so no refresh happens at the next tick.  This theorem
evaluates the code at that failing scenario. -/
theorem c1_refresh_is_single_shot (u p realmAttr nonceAttr es : String)
    (s2 : SendResult) :
    RefreshRun u p .tick (.resp false realmAttr nonceAttr es) s2 =
      ([⟨u, p, "", ""⟩], none) := rfl

/-- C2: a Refresh that receives an error-class response is re-issued exactly
once, carrying the REALM and NONCE attributes of that error response; the
trace has exactly two requests whatever the second result is, and a second
error-class response surfaces as a logged error rather than a third attempt. -/
theorem c2_stale_nonce_retried_once (u p realmAttr nonceAttr es : String)
    (s2 : SendResult) :
    (RefreshRun u p .tick (.resp true realmAttr nonceAttr es) s2).1 =
      [⟨u, p, "", ""⟩, ⟨u, p, nonceAttr, realmAttr⟩] ∧
    (RefreshRun u p .tick (.resp true realmAttr nonceAttr es) s2).2 =
      (match s2 with
        | .err e => some e
        | .resp true _ _ errString2 => some errString2
        | .resp false _ _ _ => none) := by
  cases s2 with
  | err e => exact ⟨rfl, rfl⟩
  | resp isErr2 r2 n2 es2 => cases isErr2 <;> exact ⟨rfl, rfl⟩

/-- C3 counterexample: the claim says every ChannelData frame the scanner
sends is padded to a multiple of 4 bytes for every domain name.  For the
domain name a.b (the spec's own DNS example) the frame is 25 bytes long,
and 25 mod 4 is 1, not 0. -/
theorem c3_counterexample_dns_frame_length :
    (dnsChannelData [0x40, 0x00] 0 [0x61, 0x2e, 0x62]).length = 25 ∧
    ¬ ((dnsChannelData [0x40, 0x00] 0 [0x61, 0x2e, 0x62]).length % 4 = 0) := by
  decide

/-- C3 amended: the scanner's ChannelData frames have the shape u16 channel,
u16 big-endian length, payload, with no trailing padding: the total length is
exactly 4 plus the payload length, and is a multiple of 4 exactly when the
payload length is. -/
theorem c3_frames_are_unpadded (ch community dnsName : List Nat)
    (reqID txid : Nat) (h : ch.length = 2) :
    snmpChannelData ch community reqID =
      ch ++ putUint16 ((snmpPayload community reqID).length % 65536) ++
        snmpPayload community reqID ∧
    (snmpChannelData ch community reqID).length =
      4 + (snmpPayload community reqID).length ∧
    dnsChannelData ch txid dnsName =
      ch ++ putUint16 ((dnsPayload txid dnsName).length % 65536) ++
        dnsPayload txid dnsName ∧
    (dnsChannelData ch txid dnsName).length =
      4 + (dnsPayload txid dnsName).length ∧
    ((snmpChannelData ch community reqID).length % 4 = 0 ↔
      (snmpPayload community reqID).length % 4 = 0) ∧
    ((dnsChannelData ch txid dnsName).length % 4 = 0 ↔
      (dnsPayload txid dnsName).length % 4 = 0) := by
  have hs : (snmpChannelData ch community reqID).length =
      4 + (snmpPayload community reqID).length := by
    simp [snmpChannelData, putUint16, h]
    omega
  have hd : (dnsChannelData ch txid dnsName).length =
      4 + (dnsPayload txid dnsName).length := by
    simp [dnsChannelData, putUint16, h]
    omega
  refine ⟨rfl, hs, rfl, hd, ?_, ?_⟩
  · rw [hs]; omega
  · rw [hd]; omega

/-- C3 amended witness: the amended statement instantiated at a concrete
2-byte channel number, community string and domain name. -/
theorem c3_frames_are_unpadded_witness :
    ([0x40, 0x00] : List Nat).length = 2 ∧
    (snmpChannelData [0x40, 0x00] [0x61] 7 =
      [0x40, 0x00] ++ putUint16 ((snmpPayload [0x61] 7).length % 65536) ++
        snmpPayload [0x61] 7 ∧
    (snmpChannelData [0x40, 0x00] [0x61] 7).length =
      4 + (snmpPayload [0x61] 7).length ∧
    dnsChannelData [0x40, 0x00] 9 [0x61, 0x2e, 0x62] =
      [0x40, 0x00] ++
        putUint16 ((dnsPayload 9 [0x61, 0x2e, 0x62]).length % 65536) ++
        dnsPayload 9 [0x61, 0x2e, 0x62] ∧
    (dnsChannelData [0x40, 0x00] 9 [0x61, 0x2e, 0x62]).length =
      4 + (dnsPayload 9 [0x61, 0x2e, 0x62]).length ∧
    ((snmpChannelData [0x40, 0x00] [0x61] 7).length % 4 = 0 ↔
      (snmpPayload [0x61] 7).length % 4 = 0) ∧
    ((dnsChannelData [0x40, 0x00] 9 [0x61, 0x2e, 0x62]).length % 4 = 0 ↔
      (dnsPayload 9 [0x61, 0x2e, 0x62]).length % 4 = 0)) :=
  ⟨by decide,
    c3_frames_are_unpadded [0x40, 0x00] [0x61] [0x61, 0x2e, 0x62] 7 9
      (by decide)⟩

/-- C4: for community public and request id 0xDEADBEEF the SNMP payload is
exactly the spec's byte sequence (the length byte after the 0x30 tag being
0x26), and the u16 length field of the surrounding ChannelData frame is
0x0028, the payload length 40 encoded big-endian. -/
theorem c4_snmp_probe_bytes (ch : List Nat) :
    snmpPayload [0x70, 0x75, 0x62, 0x6c, 0x69, 0x63] 0xDEADBEEF =
      [0x30, 0x26, 0x02, 0x01, 0x01, 0x04, 0x06, 0x70, 0x75, 0x62, 0x6c,
        0x69, 0x63, 0xa1, 0x19, 0x02, 0x04, 0xDE, 0xAD, 0xBE, 0xEF, 0x02,
        0x01, 0x00, 0x02, 0x01, 0x00, 0x30, 0x0b, 0x30, 0x09, 0x06, 0x05,
        0x2b, 0x06, 0x01, 0x02, 0x01, 0x05, 0x00] ∧
    snmpChannelData ch [0x70, 0x75, 0x62, 0x6c, 0x69, 0x63] 0xDEADBEEF =
      ch ++ [0x00, 0x28] ++
        snmpPayload [0x70, 0x75, 0x62, 0x6c, 0x69, 0x63] 0xDEADBEEF := by
  refine ⟨by decide, ?_⟩
  show ch ++ putUint16 _ ++ _ = _
  rw [List.append_assoc, List.append_assoc]
  exact congrArg (fun l => ch ++ l) (by decide)

/-- C5: for the domain name a.b the DNS payload is the 2-byte transaction id
followed by exactly the bytes 01 00 00 01 00 00 00 00 00 00 01 61 01 62 00
00 01 00 01. -/
theorem c5_dns_probe_bytes (txid : Nat) :
    dnsPayload txid [0x61, 0x2e, 0x62] =
      putUint16 txid ++ [0x01, 0x00, 0x00, 0x01, 0x00, 0x00, 0x00, 0x00,
        0x00, 0x00, 0x01, 0x61, 0x01, 0x62, 0x00, 0x00, 0x01, 0x00, 0x01] := by
  have h : dnsQuestion [0x61, 0x2e, 0x62] =
      [0x01, 0x61, 0x01, 0x62, 0x00, 0x00, 0x01, 0x00, 0x01] := by decide
  simp [dnsPayload, putUint16, h]

/-- C6: for a validated configuration, a timeout during TURN setup or during
the probe-response read makes the probe return nil with no log line of its
own, every non-timeout probe error produces exactly one Error log line, and
the scan of the remaining items proceeds unchanged, UDPScanner still
returning nil. -/
theorem c6_timeouts_silent_errors_logged (opts : UDPScannerOpts)
    (h : validateOpts opts = none) :
    snmpScanResult .setupTimeout = none ∧
    snmpScanResult .readTimeout = none ∧
    dnsScanResult .setupTimeout = none ∧
    dnsScanResult .readTimeout = none ∧
    (∀ ip,
      probeLogs "SNMP" ip .setupTimeout (snmpScanResult .setupTimeout) = [] ∧
      probeLogs "SNMP" ip .readTimeout (snmpScanResult .readTimeout) = [] ∧
      probeLogs "DNS" ip .setupTimeout (dnsScanResult .setupTimeout) = [] ∧
      probeLogs "DNS" ip .readTimeout (dnsScanResult .readTimeout) = []) ∧
    (∀ kind ip o e, probeLogs kind ip o (some e) =
      [LogEntry.error
        ("error on running " ++ kind ++ " Scan for ip " ++ ip ++ ": " ++ e)]) ∧
    (∀ item rest, UDPScanner opts (item :: rest) =
      (none, scanItemLogs item ++ (rest.map scanItemLogs).flatten)) := by
  refine ⟨rfl, rfl, rfl, rfl, fun ip => ⟨rfl, rfl, rfl, rfl⟩,
    fun kind ip o e => rfl, ?_⟩
  intro item rest
  simp [UDPScanner, h]

/-- C6 witness: the conclusion about UDPScanner instantiated at a concrete
validated configuration and a one-item stream. -/
theorem c6_timeouts_silent_errors_logged_witness :
    validateOpts
      ⟨"t:3478", "udp", "u", "p", false, false, 1, true, [0x61], [0x61], []⟩ =
      none ∧
    UDPScanner
      ⟨"t:3478", "udp", "u", "p", false, false, 1, true, [0x61], [0x61], []⟩
      (IterItem.iterError "x" :: []) =
      (none, scanItemLogs (IterItem.iterError "x") ++
        (List.map scanItemLogs []).flatten) :=
  ⟨by decide,
    (c6_timeouts_silent_errors_logged
      ⟨"t:3478", "udp", "u", "p", false, false, 1, true, [0x61], [0x61], []⟩
      (by decide)).2.2.2.2.2.2 (IterItem.iterError "x") []⟩

/-- C7: with drop-non-private enabled, a request whose resolved target is not
private is answered with HostUnreachable, the handler stores no control
connection, and no TURN connection setup is attempted. -/
theorem c7_drop_non_private_rejects (isPrivate : List Nat → Bool)
    (resolve : ResolveResult) (setup : SetupResult) (req : SocksRequest)
    (target : List Nat) (hres : resolveTarget resolve req = .ok target)
    (hpriv : isPrivate target = false) :
    PreHandler true isPrivate resolve setup req =
      ⟨.failure .hostUnreachable, none, false⟩ := by
  simp [PreHandler, hres, hpriv]

/-- C7 witness: the spec's scenario for CONNECT to a resolved public address
with drop-non-private enabled. -/
theorem c7_drop_non_private_rejects_witness :
    resolveTarget (.ok [[93, 184, 216, 34]]) ⟨.domainname, [0x77], 80⟩ =
      .ok [93, 184, 216, 34] ∧
    (fun _ => false : List Nat → Bool) [93, 184, 216, 34] = false ∧
    PreHandler true (fun _ => false) (.ok [[93, 184, 216, 34]]) (.ok 1 2)
      ⟨.domainname, [0x77], 80⟩ =
      ⟨.failure .hostUnreachable, none, false⟩ :=
  ⟨by decide, rfl,
    c7_drop_non_private_rejects (fun _ => false) (.ok [[93, 184, 216, 34]])
      (.ok 1 2) ⟨.domainname, [0x77], 80⟩ [93, 184, 216, 34] (by decide) rfl⟩

set_option maxRecDepth 10000 in
/-- C8: the claim says a community string over 127 bytes or a domain label
over 63 bytes is rejected as configuration-invalid before any probe is
assembled.  The code's Validate only checks non-emptiness: a 300-byte
community string passes validation, and the assembled SNMP payload carries
the wrapped community length byte 300 mod 256 = 44 at index 6; likewise a
300-byte domain label gets the wrapped label length byte 44. -/
theorem c8_overlong_inputs_not_rejected :
    validateOpts
      ⟨"t:3478", "udp", "u", "p", false, false, 1, true,
        List.replicate 300 0x61, List.replicate 300 0x61, []⟩ = none ∧
    (snmpPayload (List.replicate 300 0x61) 0).get? 6 = some 44 ∧
    (dnsQuestion (List.replicate 300 0x61)).get? 0 = some 44 := by
  refine ⟨by decide, by decide, by decide⟩

/-- C9 counterexample: the claim says the first Refresh request of each
refresh cycle carries the allocation's current realm and nonce rather than
empty strings.  In a cycle where the server's current realm and nonce are
realm1 and nonce1 (as its error response shows), the first request issued
carries the empty realm and the empty nonce. -/
theorem c9_counterexample_first_refresh_empty :
    ((RefreshRun "u" "p" .tick (.resp true "realm1" "nonce1" "err")
      (.resp false "" "" "")).1.head? = some ⟨"u", "p", "", ""⟩) ∧
    ¬ ((RefreshRun "u" "p" .tick (.resp true "realm1" "nonce1" "err")
      (.resp false "" "" "")).1.head? = some ⟨"u", "p", "nonce1", "realm1"⟩) := by
  decide

/-- C9 amended: each refresh cycle begins with a Refresh request carrying the
empty realm and the empty nonce; only the retry after an error-class response
carries the realm and nonce the server supplied in that response. -/
theorem c9_first_refresh_has_empty_credentials (u p : String)
    (ev : RefreshEvent) (s1 s2 : SendResult) :
    ((RefreshRun u p ev s1 s2).1.head? = none ∨
      (RefreshRun u p ev s1 s2).1.head? = some ⟨u, p, "", ""⟩) ∧
    (∀ realmAttr nonceAttr es,
      (RefreshRun u p .tick (.resp true realmAttr nonceAttr es) s2).1.getLast? =
        some ⟨u, p, nonceAttr, realmAttr⟩) := by
  constructor
  · cases ev with
    | ctxDone => exact Or.inl rfl
    | tick =>
      cases s1 with
      | err e => exact Or.inr rfl
      | resp isErr r n es =>
        cases isErr with
        | false => exact Or.inr rfl
        | true =>
          cases s2 with
          | err e => exact Or.inr rfl
          | resp b r2 n2 es2 => cases b <;> exact Or.inr rfl
  · intro realmAttr nonceAttr es
    cases s2 with
    | err e => rfl
    | resp b r2 n2 es2 => cases b <;> rfl

/-- C10: UDPScanner's return value is exactly the validation result: it
returns the configuration error when Validate fails and nil otherwise,
however many per-item probes fail, those failures being only logged. -/
theorem c10_scanner_returns_validation_result (opts : UDPScannerOpts)
    (items : List IterItem) :
    (UDPScanner opts items).1 = validateOpts opts := by
  cases h : validateOpts opts with
  | none => simp [UDPScanner, h]
  | some e => simp [UDPScanner, h]

end Stunner
